import Mathlib

/-!
Shallow embedding of the firebase-admin-backend request handlers.

The repository is a small Express server; every endpoint is a sequential
chain of calls to external services (the identity directory, the structured
record store, and the asset host).  Each handler is embedded as a pure Lean
function; the outcome of each external call is supplied by an environment
record (`CallResult` per call), and each handler returns its HTTP response
together with the list of external calls it attempted, in order.
-/

namespace FirebaseAdminBackend

/-- Outcome of a single awaited call to an external service: either it
resolves, or it throws an error carrying a message and (for the asset host)
an optional HTTP error code. -/
inductive CallResult where
  | ok : CallResult
  | err (message : String) (httpCode : Option Nat) : CallResult
  deriving DecidableEq, Repr

/-! ## Identity directory: records, enable/disable (index.js disable/enable) -/

/-- The slice of an identity record the backend reads and writes. -/
structure IdentityRecord where
  email : String
  displayName : String
  disabled : Bool
  deriving DecidableEq, Repr

/-- The identity directory, keyed by uid. -/
def IdentityStore := String → Option IdentityRecord

/-- `auth.updateUser(uid, { disabled })`: fails when no record exists for the
uid, otherwise rewrites only the `disabled` field of that record. -/
def updateUser (store : IdentityStore) (uid : String) (newDisabled : Bool) :
    Except String IdentityStore :=
  match store uid with
  | none => .error "no user record"
  | some r =>
      .ok (fun u => if u = uid then some { r with disabled := newDisabled } else store u)

/-- Response of the enable/disable handlers plus the resulting store state. -/
structure ToggleResult where
  status : Nat
  success : Bool
  store : IdentityStore

/-- Handler for `POST /users/:uid/disable`: writes the constant `true`. -/
def disableUserHandler (store : IdentityStore) (uid : String) : ToggleResult :=
  match updateUser store uid true with
  | .ok s => { status := 200, success := true, store := s }
  | .error _ => { status := 500, success := false, store := store }

/-- Handler for `POST /users/:uid/enable`: writes the constant `false`. -/
def enableUserHandler (store : IdentityStore) (uid : String) : ToggleResult :=
  match updateUser store uid false with
  | .ok s => { status := 200, success := true, store := s }
  | .error _ => { status := 500, success := false, store := store }

/-! ## GET /users : single-page listing -/

/-- An identity-directory user record as returned by `listUsers`;
`providerData` is the list of linked provider identifiers. -/
structure AuthUserRecord where
  uid : String
  email : String
  displayName : String
  photoURL : String
  disabled : Bool
  creationTime : String
  lastSignInTime : String
  providerData : List String
  deriving DecidableEq, Repr

/-- Result of one `auth.listUsers(maxResults)` page request. -/
structure ListUsersPage where
  users : List AuthUserRecord
  pageToken : Option String

/-- `auth.listUsers(maxResults)`: one page of at most `maxResults` records,
with a continuation token exactly when more records remain. -/
def listUsers (directory : List AuthUserRecord) (maxResults : Nat) : ListUsersPage :=
  { users := directory.take maxResults
    pageToken := if maxResults < directory.length then some "next-page-token" else none }

/-- The JSON object pushed for each record by the GET /users handler. -/
structure UserSummary where
  uid : String
  email : String
  displayName : String
  photoURL : String
  disabled : Bool
  creationTime : String
  lastSignInTime : String
  providerId : String
  deriving DecidableEq, Repr

/-- Per-record shaping done inside the GET /users loop, including the
google.com / password provider classification. -/
def summarize (u : AuthUserRecord) : UserSummary :=
  { uid := u.uid, email := u.email, displayName := u.displayName, photoURL := u.photoURL
    disabled := u.disabled, creationTime := u.creationTime, lastSignInTime := u.lastSignInTime
    providerId := if u.providerData.contains "google.com" then "google.com" else "password" }

/-- Handler for `GET /users`: a single `listUsers 1000` call; the page token
is never read, so only the first page is returned. -/
def getUsersHandler (directory : List AuthUserRecord) : List UserSummary :=
  (listUsers directory 1000).users.map summarize

/-! ## POST /users : user creation -/

/-- Request body of POST /users; `emailVerified` may be sent by the client
but the handler never reads it. -/
structure CreateUserBody where
  email : Option String
  password : Option String
  displayName : Option String
  emailVerified : Option Bool
  deriving DecidableEq, Repr

/-- The argument object passed to `auth.createUser`. -/
structure CreateUserArgs where
  email : String
  password : String
  emailVerified : Bool
  displayName : String
  deriving DecidableEq, Repr

/-- JavaScript truthiness of an optional string field (`!x` is true for a
missing field and for the empty string). -/
def truthyStr : Option String → Bool
  | none => false
  | some s => !(s == "")

/-- JavaScript `x || ""` on an optional string. -/
def jsOrEmpty : Option String → String
  | none => ""
  | some s => s

/-- Response of the POST /users handler; `argsSent` records the argument
object passed to `auth.createUser`, or `none` when no call was made. -/
structure CreateUserResult where
  status : Nat
  argsSent : Option CreateUserArgs
  deriving DecidableEq, Repr

/-- Handler for `POST /users`: 400 when email or password is falsy, else
calls `createUser` with `emailVerified: true` and defaulted displayName. -/
def postUsersHandler (body : CreateUserBody) (createCall : CallResult) : CreateUserResult :=
  if truthyStr body.email && truthyStr body.password then
    let args : CreateUserArgs :=
      { email := jsOrEmpty body.email, password := jsOrEmpty body.password
        emailVerified := true, displayName := jsOrEmpty body.displayName }
    match createCall with
    | .ok => { status := 201, argsSent := some args }
    | .err _ _ => { status := 400, argsSent := some args }
  else
    { status := 400, argsSent := none }

/-! ## Theorems for the user endpoints -/

/-- C6: invoking disable then enable leaves the identity record with
`disabled = false`, and enable then disable leaves it with `disabled = true`;
each handler writes a constant value, so the last invocation wins regardless
of the prior value of the flag. -/
theorem disable_enable_last_write_wins (store : IdentityStore) (uid : String)
    (r : IdentityRecord) (h : store uid = some r) :
    ((enableUserHandler (disableUserHandler store uid).store uid).store uid
        = some { r with disabled := false }) ∧
    ((disableUserHandler (enableUserHandler store uid).store uid).store uid
        = some { r with disabled := true }) := by
  simp [disableUserHandler, enableUserHandler, updateUser, h]

/-- Sample identity store with a single user, used as a concrete witness. -/
def sampleStore : IdentityStore :=
  fun u =>
    if u = "u1" then some { email := "a@b.c", displayName := "A", disabled := false } else none

/-- Witness for C6 at a concrete store and uid. -/
theorem disable_enable_last_write_wins_w :
    ((enableUserHandler (disableUserHandler sampleStore "u1").store "u1").store "u1"
        = some { email := "a@b.c", displayName := "A", disabled := false }) ∧
    ((disableUserHandler (enableUserHandler sampleStore "u1").store "u1").store "u1"
        = some { email := "a@b.c", displayName := "A", disabled := true }) :=
  disable_enable_last_write_wins sampleStore "u1"
    { email := "a@b.c", displayName := "A", disabled := false } (by simp [sampleStore])

/-- C10: GET /users issues a single page request of size 1000 and never
follows the pagination token, so it returns `min 1000 n` records; for a
directory holding more than 1000 users the listing omits the rest. -/
theorem getUsers_single_page (directory : List AuthUserRecord) :
    (getUsersHandler directory).length = min 1000 directory.length ∧
    (1000 < directory.length → (getUsersHandler directory).length < directory.length) := by
  constructor
  · simp [getUsersHandler, listUsers]
  · intro h
    simp only [getUsersHandler, listUsers, List.length_map, List.length_take]
    omega

/-- A concrete directory entry used for the C10 witness. -/
def sampleAuthUser : AuthUserRecord :=
  { uid := "u1", email := "a@b.c", displayName := "A", photoURL := "", disabled := false
    creationTime := "t0", lastSignInTime := "t1", providerData := [] }

/-- Witness for C10: a directory of 1001 users is listed with fewer entries
than it holds. -/
theorem getUsers_single_page_w :
    (getUsersHandler (List.replicate 1001 sampleAuthUser)).length
      < (List.replicate 1001 sampleAuthUser).length :=
  (getUsers_single_page (List.replicate 1001 sampleAuthUser)).2
    (by simp only [List.length_replicate]; omega)

/-- C9: every user created through POST /users is passed to `createUser` with
`emailVerified = true`, and with `displayName = ""` whenever the request body
omits it, regardless of the `emailVerified` value the client sent. -/
theorem createUser_forces_flags (body : CreateUserBody) (createCall : CallResult)
    (he : truthyStr body.email = true) (hp : truthyStr body.password = true) :
    (postUsersHandler body createCall).argsSent.map CreateUserArgs.emailVerified = some true ∧
    (body.displayName = none →
      (postUsersHandler body createCall).argsSent.map CreateUserArgs.displayName = some "") := by
  cases createCall <;>
    simp [postUsersHandler, he, hp] <;>
    intro h <;> simp [h, jsOrEmpty]

/-- A concrete POST /users body whose client even claims emailVerified=false. -/
def sampleCreateBody : CreateUserBody :=
  { email := some "x@y.z", password := some "pw", displayName := none, emailVerified := some false }

/-- Witness for C9 at a concrete request body. -/
theorem createUser_forces_flags_w :
    (postUsersHandler sampleCreateBody .ok).argsSent.map CreateUserArgs.emailVerified
        = some true ∧
    (postUsersHandler sampleCreateBody .ok).argsSent.map CreateUserArgs.displayName
        = some "" :=
  ⟨(createUser_forces_flags sampleCreateBody .ok rfl rfl).1,
   (createUser_forces_flags sampleCreateBody .ok rfl rfl).2 rfl⟩

/-! ## DELETE /users/:uid : the deprovisioning variants

Three variants of the handler appear in the sources:
* `deleteUserIndexJs` (index.js): identity deletion, then profile-record
  deletion, no asset step;
* `deleteUserP5` (the detailed-logs variant): best-effort asset cleanup in an
  inner try/catch, then profile-record deletion, then identity deletion;
* `deleteUserP3` (the variant with a single try block): asset cleanup,
  profile, identity all in one try, whose catch reports success on a
  404-class error and 500 otherwise.
-/

/-- A deprovisioning step, named after the external call it performs. -/
inductive DeleteStep where
  | assetImageDelete
  | assetVideoDelete
  | assetFolderDelete
  | assetPrefixDelete
  | profileRemove
  | identityDelete
  deriving DecidableEq, Repr

/-- Outcomes of the external calls a deprovisioning handler can make. -/
structure DeleteUserEnv where
  assetImageCall : CallResult
  assetVideoCall : CallResult
  assetFolderCall : CallResult
  assetPrefixCall : CallResult
  dbRemoveCall : CallResult
  authDeleteCall : CallResult
  deriving DecidableEq, Repr

/-- Response body of a deprovisioning handler. -/
inductive DeleteBody where
  | success (message : String)
  | failure (error : String) (details : String)
  deriving DecidableEq, Repr

/-- Response of a deprovisioning handler plus the ordered list of external
calls it attempted. -/
structure DeleteUserResult where
  status : Nat
  body : DeleteBody
  trace : List DeleteStep
  deriving DecidableEq, Repr

/-- Handler of `DELETE /users/:uid` in index.js: `auth.deleteUser(uid)` first,
then `db.ref(users/uid).remove()`; any error yields a 500. -/
def deleteUserIndexJs (uid : String) (env : DeleteUserEnv) : DeleteUserResult :=
  match env.authDeleteCall with
  | .err m _ =>
      { status := 500, body := .failure "Failed to delete user" m
        trace := [.identityDelete] }
  | .ok =>
      match env.dbRemoveCall with
      | .err m _ =>
          { status := 500, body := .failure "Failed to delete user" m
            trace := [.identityDelete, .profileRemove] }
      | .ok =>
          { status := 200
            body := .success ("User " ++ uid ++ " and database entries deleted.")
            trace := [.identityDelete, .profileRemove] }

/-- Handler of `DELETE /users/:uid` in the detailed-logs variant: the three
asset-host calls (delete images by prefix, delete videos by prefix, delete
folder) run inside an inner try/catch whose failure is only logged; then the
profile record is removed and the identity record deleted, each fatal on
error. -/
def deleteUserP5 (uid : String) (env : DeleteUserEnv) : DeleteUserResult :=
  let assetTrace :=
    match env.assetImageCall with
    | .err _ _ => [DeleteStep.assetImageDelete]
    | .ok =>
        match env.assetVideoCall with
        | .err _ _ => [DeleteStep.assetImageDelete, DeleteStep.assetVideoDelete]
        | .ok =>
            [DeleteStep.assetImageDelete, DeleteStep.assetVideoDelete,
             DeleteStep.assetFolderDelete]
  match env.dbRemoveCall with
  | .err m _ =>
      { status := 500, body := .failure "Failed to delete user completely" m
        trace := assetTrace ++ [.profileRemove] }
  | .ok =>
      match env.authDeleteCall with
      | .err m _ =>
          { status := 500, body := .failure "Failed to delete user completely" m
            trace := assetTrace ++ [.profileRemove, .identityDelete] }
      | .ok =>
          { status := 200
            body := .success ("User " ++ uid ++ " and all associated data have been deleted.")
            trace := assetTrace ++ [.profileRemove, .identityDelete] }

/-- The catch block of the single-try variant: a 404-class error still
responds with the success message, every other error yields a 500. -/
def p3Catch (uid : String) (m : String) (c : Option Nat) (t : List DeleteStep) :
    DeleteUserResult :=
  if c = some 404 then
    { status := 200
      body := .success ("User " ++ uid ++ " and all associated data have been deleted.")
      trace := t }
  else
    { status := 500, body := .failure "Failed to delete user completely" m, trace := t }

/-- Handler of `DELETE /users/:uid` in the single-try variant: asset
delete-by-prefix, asset folder delete, profile-record removal and identity
deletion all run in one try block; the first error aborts the rest and is
handled by `p3Catch`. -/
def deleteUserP3 (uid : String) (env : DeleteUserEnv) : DeleteUserResult :=
  match env.assetPrefixCall with
  | .err m c => p3Catch uid m c [.assetPrefixDelete]
  | .ok =>
      match env.assetFolderCall with
      | .err m c => p3Catch uid m c [.assetPrefixDelete, .assetFolderDelete]
      | .ok =>
          match env.dbRemoveCall with
          | .err m c =>
              p3Catch uid m c [.assetPrefixDelete, .assetFolderDelete, .profileRemove]
          | .ok =>
              match env.authDeleteCall with
              | .err m c =>
                  p3Catch uid m c
                    [.assetPrefixDelete, .assetFolderDelete, .profileRemove, .identityDelete]
              | .ok =>
                  { status := 200
                    body := .success
                      ("User " ++ uid ++ " and all associated data have been deleted.")
                    trace := [.assetPrefixDelete, .assetFolderDelete, .profileRemove,
                              .identityDelete] }

/-- Rank of a deprovisioning step in the spec ordering: asset cleanup (0),
profile-record deletion (1), identity deletion (2). -/
def deleteStepRank : DeleteStep → Nat
  | .assetImageDelete => 0
  | .assetVideoDelete => 0
  | .assetFolderDelete => 0
  | .assetPrefixDelete => 0
  | .profileRemove => 1
  | .identityDelete => 2

/-- A list of naturals is non-decreasing. -/
def ranksMonotone : List Nat → Bool
  | [] => true
  | [_] => true
  | a :: b :: t => decide (a ≤ b) && ranksMonotone (b :: t)

/-- The attempted steps respect the order asset cleanup, then profile-record
deletion, then identity deletion. -/
def stepsInSpecOrder (t : List DeleteStep) : Bool :=
  ranksMonotone (t.map deleteStepRank)

/-- Environment where every external call resolves. -/
def envAllOk : DeleteUserEnv :=
  { assetImageCall := .ok, assetVideoCall := .ok, assetFolderCall := .ok
    assetPrefixCall := .ok, dbRemoveCall := .ok, authDeleteCall := .ok }

/-- C1 counterexample: the index.js DELETE /users/:uid handler deletes the
identity record first and the profile record second (and performs no asset
step), so the claimed order with the identity record deleted last is false
for it even when every call succeeds. -/
theorem deprovision_order_cex :
    (deleteUserIndexJs "u1" envAllOk).trace
        = [DeleteStep.identityDelete, DeleteStep.profileRemove] ∧
    stepsInSpecOrder (deleteUserIndexJs "u1" envAllOk).trace = false := by
  decide

/-- C1 (amended): in the detailed-logs variant of DELETE /users/:uid, for
every user id and every pattern of call outcomes the attempted steps begin
with asset cleanup and respect the order asset cleanup, then profile-record
deletion, then identity deletion; in particular the identity record is never
deleted before the profile record. -/
theorem deprovision_order_p5 (uid : String) (env : DeleteUserEnv) :
    stepsInSpecOrder (deleteUserP5 uid env).trace = true ∧
    (deleteUserP5 uid env).trace.head? = some DeleteStep.assetImageDelete := by
  rcases env with ⟨i, v, f, p, d, a⟩
  cases i <;> cases v <;> cases d <;> cases a <;> exact ⟨rfl, rfl⟩

/-- C2 (amended): in the detailed-logs variant of DELETE /users/:uid, when
the profile-record removal and the identity deletion succeed, the handler
responds with the success result and both of those steps were attempted, no
matter how the asset-cleanup calls fail. -/
theorem deprovision_asset_failures_nonblocking (uid : String) (env : DeleteUserEnv)
    (hd : env.dbRemoveCall = .ok) (ha : env.authDeleteCall = .ok) :
    (deleteUserP5 uid env).status = 200 ∧
    (deleteUserP5 uid env).body
        = .success ("User " ++ uid ++ " and all associated data have been deleted.") ∧
    DeleteStep.profileRemove ∈ (deleteUserP5 uid env).trace ∧
    DeleteStep.identityDelete ∈ (deleteUserP5 uid env).trace := by
  rcases env with ⟨i, v, f, p, d, a⟩
  simp only at hd ha
  subst hd ha
  cases i <;> cases v <;> refine ⟨rfl, rfl, ?_, ?_⟩ <;> simp [deleteUserP5]

/-- Environment where the asset delete-by-prefix call fails with a 404 and
every other call resolves. -/
def envAssetsFail : DeleteUserEnv :=
  { assetImageCall := .err "folder not found" (some 404), assetVideoCall := .ok
    assetFolderCall := .ok, assetPrefixCall := .err "folder not found" (some 404)
    dbRemoveCall := .ok, authDeleteCall := .ok }

/-- Witness for C2 (amended): with a failing asset-cleanup call the
detailed-logs handler still removes the profile record and deletes the
identity record and reports success. -/
theorem deprovision_asset_failures_nonblocking_w :
    (deleteUserP5 "u1" envAssetsFail).status = 200 ∧
    (deleteUserP5 "u1" envAssetsFail).body
        = .success ("User " ++ "u1" ++ " and all associated data have been deleted.") ∧
    DeleteStep.profileRemove ∈ (deleteUserP5 "u1" envAssetsFail).trace ∧
    DeleteStep.identityDelete ∈ (deleteUserP5 "u1" envAssetsFail).trace :=
  deprovision_asset_failures_nonblocking "u1" envAssetsFail rfl rfl

/-- C2 counterexample: in the single-try variant of DELETE /users/:uid, a
folder-not-found failure of the asset-cleanup step aborts the profile-record
and identity deletions (neither is attempted), even though the handler still
reports success. -/
theorem deprovision_asset_abort_cex :
    (deleteUserP3 "u1" envAssetsFail).status = 200 ∧
    (deleteUserP3 "u1" envAssetsFail).trace = [DeleteStep.assetPrefixDelete] ∧
    DeleteStep.profileRemove ∉ (deleteUserP3 "u1" envAssetsFail).trace ∧
    DeleteStep.identityDelete ∉ (deleteUserP3 "u1" envAssetsFail).trace := by
  decide

/-! ## POST /delete-cloudinary-assets (id mode) and /delete-cloudinary-folder -/

/-- A call made by an asset-cleanup handler. -/
inductive AssetStep where
  | imageDelete
  | videoDelete
  | rawDelete
  | folderDelete (folder : String)
  | resourcesDelete (ids : List String)
  deriving DecidableEq, Repr

/-- Outcomes of the asset-host calls available to the id-mode handlers. -/
structure AssetsEnv where
  imageCall : CallResult
  videoCall : CallResult
  rawCall : CallResult
  folderCall : CallResult
  deriving DecidableEq, Repr

/-- The `public_ids` field of the request body: absent, present but not an
array, or an array of ids. -/
inductive PublicIdsField where
  | missing
  | nonArray
  | arr (ids : List String)
  deriving DecidableEq, Repr

/-- Entry stored in the per-class details map: the deletion outcome, or the
captured error message for that class. -/
inductive ClassOutcome where
  | success
  | failure (message : String)
  deriving DecidableEq, Repr

/-- The `deleteResourceByType` helper of the per-class variant: it awaits the
class deletion and stores either the result or the caught error message. -/
def deleteResourceByType : CallResult → ClassOutcome
  | .ok => .success
  | .err m _ => .failure m

/-- The details map keyed by content-type class. -/
structure ClassDetails where
  image : ClassOutcome
  video : ClassOutcome
  raw : ClassOutcome
  deriving DecidableEq, Repr

/-- Response body of an id-mode asset-cleanup handler. -/
inductive AssetsBody where
  | errorOnly (error : String)
  | messageOnly (message : String)
  | withDetails (message : String) (details : ClassDetails)
  deriving DecidableEq, Repr

/-- Response of an id-mode asset-cleanup handler plus the attempted calls. -/
structure AssetsResult where
  status : Nat
  body : AssetsBody
  trace : List AssetStep
  deriving DecidableEq, Repr

/-- Index of the last occurrence of `c` in the list, as
`String.lastIndexOf` computes it (none when absent). -/
def lastIdx : List Char → Char → Option Nat
  | [], _ => none
  | x :: xs, c =>
      match lastIdx xs c with
      | some i => some (i + 1)
      | none => if x = c then some 0 else none

/-- `firstId.substring(0, firstId.lastIndexOf('/'))`: the parent folder of
the first asset id, the empty string when the id has no separator (JS
substring clamps the negative end index to 0). -/
def folderToDelete (firstId : String) : String :=
  match lastIdx firstId.data '/' with
  | none => ""
  | some i => String.mk (firstId.data.take i)

/-- Folder-deletion attempt of the index.js handler: guarded by the
truthiness of the derived folder string. -/
def indexFolderSteps (firstId : String) : List AssetStep :=
  if folderToDelete firstId = "" then [] else [.folderDelete (folderToDelete firstId)]

/-- Folder-deletion attempt of the per-class variant: guarded first by
`firstId.includes("/")` and then by the truthiness of the derived string. -/
def typedFolderSteps (firstId : String) : List AssetStep :=
  match lastIdx firstId.data '/' with
  | none => []
  | some i =>
      if String.mk (firstId.data.take i) = "" then []
      else [.folderDelete (String.mk (firstId.data.take i))]

/-- Handler of `POST /delete-cloudinary-assets` in index.js: the image,
video and raw deletions run unguarded inside one try block (an error in any
of them aborts the rest and yields a 500); on success the parent folder
deletion is attempted in its own try/catch and the response is a 200. -/
def assetsByIdsIndexJs (publicIds : PublicIdsField) (env : AssetsEnv) : AssetsResult :=
  match publicIds with
  | .arr (firstId :: _) =>
      match env.imageCall with
      | .err m _ => { status := 500, body := .errorOnly m, trace := [.imageDelete] }
      | .ok =>
          match env.videoCall with
          | .err m _ =>
              { status := 500, body := .errorOnly m, trace := [.imageDelete, .videoDelete] }
          | .ok =>
              match env.rawCall with
              | .err m _ =>
                  { status := 500, body := .errorOnly m
                    trace := [.imageDelete, .videoDelete, .rawDelete] }
              | .ok =>
                  { status := 200
                    body := .messageOnly "Assets and folder cleanup process initiated."
                    trace := [.imageDelete, .videoDelete, .rawDelete]
                              ++ indexFolderSteps firstId }
  | _ => { status := 400, body := .errorOnly "Missing public_ids array.", trace := [] }

/-- Handler of `POST /delete-cloudinary-assets` in the per-class variant:
each class deletion runs through `deleteResourceByType`, which catches its
error into the details map, so all three classes are always attempted, the
folder deletion is best-effort, and the response is always a 200 carrying
the details map. -/
def assetsByIdsTyped (publicIds : PublicIdsField) (env : AssetsEnv) : AssetsResult :=
  match publicIds with
  | .arr (firstId :: _) =>
      { status := 200
        body := .withDetails "Asset cleanup process finished."
          { image := deleteResourceByType env.imageCall
            video := deleteResourceByType env.videoCall
            raw := deleteResourceByType env.rawCall }
        trace := [.imageDelete, .videoDelete, .rawDelete] ++ typedFolderSteps firstId }
  | _ => { status := 400, body := .errorOnly "Missing public_ids array.", trace := [] }

/-- Handler of `POST /delete-cloudinary-assets` in the earliest variant:
image and video deletions and then an unguarded, unconditional
`delete_folder(folderToDelete)`; any error yields a 500. -/
def assetsByIdsP0 (publicIds : PublicIdsField) (env : AssetsEnv) : AssetsResult :=
  match publicIds with
  | .arr (firstId :: _) =>
      match env.imageCall with
      | .err _ _ =>
          { status := 500, body := .errorOnly "Failed to delete assets."
            trace := [.imageDelete] }
      | .ok =>
          match env.videoCall with
          | .err _ _ =>
              { status := 500, body := .errorOnly "Failed to delete assets."
                trace := [.imageDelete, .videoDelete] }
          | .ok =>
              match env.folderCall with
              | .err _ _ =>
                  { status := 500, body := .errorOnly "Failed to delete assets."
                    trace := [.imageDelete, .videoDelete,
                              .folderDelete (folderToDelete firstId)] }
              | .ok =>
                  { status := 200
                    body := .messageOnly "Assets and folder deleted successfully."
                    trace := [.imageDelete, .videoDelete,
                              .folderDelete (folderToDelete firstId)] }
  | _ => { status := 400, body := .errorOnly "Missing public_ids array.", trace := [] }

/-- The three content-type classes tried by the id-mode handlers. -/
inductive ResourceClass where
  | image
  | video
  | raw
  deriving DecidableEq, Repr

/-- The environment call corresponding to a content-type class. -/
def envClassCall (env : AssetsEnv) : ResourceClass → CallResult
  | .image => env.imageCall
  | .video => env.videoCall
  | .raw => env.rawCall

/-- The details-map entry of a content-type class. -/
def detailsClass (d : ClassDetails) : ResourceClass → ClassOutcome
  | .image => d.image
  | .video => d.video
  | .raw => d.raw

/-- The trace step of a content-type class deletion attempt. -/
def classStep : ResourceClass → AssetStep
  | .image => .imageDelete
  | .video => .videoDelete
  | .raw => .rawDelete

/-- The details map of a response, when its body carries one. -/
def resultDetails (r : AssetsResult) : Option ClassDetails :=
  match r.body with
  | .withDetails _ d => some d
  | _ => none

/-- There is no occurrence of `c` in `l` exactly when `lastIdx` finds none. -/
theorem lastIdx_eq_none_of_not_mem {l : List Char} {c : Char} (h : c ∉ l) :
    lastIdx l c = none := by
  induction l with
  | nil => rfl
  | cons x xs ih =>
      rw [List.mem_cons, not_or] at h
      rw [lastIdx, ih h.2, if_neg (fun hx => h.1 hx.symm)]

/-- Environment where every asset-host call resolves. -/
def envAllOkAssets : AssetsEnv :=
  { imageCall := .ok, videoCall := .ok, rawCall := .ok, folderCall := .ok }

/-- Environment where the image-class deletion throws and the rest resolve. -/
def envImageFails : AssetsEnv :=
  { imageCall := .err "not found" none, videoCall := .ok, rawCall := .ok, folderCall := .ok }

/-- C3 counterexample: in the index.js handler an error of the image class
aborts the remaining classes (video is never attempted), the response is a
500, and no details map is returned. -/
theorem class_error_aborts_cex :
    (assetsByIdsIndexJs (.arr ["a/b"]) envImageFails).status = 500 ∧
    AssetStep.videoDelete ∉ (assetsByIdsIndexJs (.arr ["a/b"]) envImageFails).trace ∧
    resultDetails (assetsByIdsIndexJs (.arr ["a/b"]) envImageFails) = none := by
  decide

/-- C3 (amended): in the per-class variant of POST /delete-cloudinary-assets
with a non-empty id list, an error of any single content-type class is
captured as that class's entry in the returned details map, all three
classes are attempted, and the response is a 200. -/
theorem class_errors_captured (firstId : String) (rest : List String) (env : AssetsEnv)
    (cl : ResourceClass) (m : String) (c : Option Nat)
    (h : envClassCall env cl = .err m c) :
    (assetsByIdsTyped (.arr (firstId :: rest)) env).status = 200 ∧
    (∀ cl' : ResourceClass,
      classStep cl' ∈ (assetsByIdsTyped (.arr (firstId :: rest)) env).trace) ∧
    (resultDetails (assetsByIdsTyped (.arr (firstId :: rest)) env)).map
        (fun d => detailsClass d cl) = some (.failure m) := by
  refine ⟨rfl, ?_, ?_⟩
  · intro cl'
    cases cl' <;> simp [assetsByIdsTyped, classStep]
  · cases cl <;>
      simp only [envClassCall] at h <;>
      simp [assetsByIdsTyped, resultDetails, detailsClass, h, deleteResourceByType]

/-- Witness for C3 (amended): with the image class failing, the per-class
handler still answers 200, attempts the video class, and stores the error
message under the image key. -/
theorem class_errors_captured_w :
    (assetsByIdsTyped (.arr ["a/b"]) envImageFails).status = 200 ∧
    classStep .video ∈ (assetsByIdsTyped (.arr ["a/b"]) envImageFails).trace ∧
    (resultDetails (assetsByIdsTyped (.arr ["a/b"]) envImageFails)).map
        (fun d => detailsClass d .image) = some (.failure "not found") :=
  ⟨(class_errors_captured "a/b" [] envImageFails .image "not found" none rfl).1,
   (class_errors_captured "a/b" [] envImageFails .image "not found" none rfl).2.1 .video,
   (class_errors_captured "a/b" [] envImageFails .image "not found" none rfl).2.2⟩

/-- C4 counterexample: in the earliest variant the folder deletion call is
made unconditionally, so for the separator-free first id "artwork" a folder
deletion is still attempted, with the empty string as folder name. -/
theorem folder_call_no_separator_cex :
    ('/' ∉ "artwork".data) ∧
    AssetStep.folderDelete "" ∈ (assetsByIdsP0 (.arr ["artwork"]) envAllOkAssets).trace := by
  decide

/-- C4 (amended): the parent folder is derived by truncating the first id at
its last separator (so "user/u1/releases/r1/artwork" yields
"user/u1/releases/r1"), and in the index.js and per-class variants no folder
deletion call is made when the first id contains no separator. -/
theorem folder_derivation (firstId : String) (rest : List String) (env : AssetsEnv)
    (h : '/' ∉ firstId.data) :
    folderToDelete "user/u1/releases/r1/artwork" = "user/u1/releases/r1" ∧
    (∀ s, AssetStep.folderDelete s ∉ (assetsByIdsIndexJs (.arr (firstId :: rest)) env).trace) ∧
    (∀ s, AssetStep.folderDelete s ∉ (assetsByIdsTyped (.arr (firstId :: rest)) env).trace) := by
  have hnone : lastIdx firstId.data '/' = none := lastIdx_eq_none_of_not_mem h
  have hfold : folderToDelete firstId = "" := by rw [folderToDelete, hnone]
  refine ⟨by decide, ?_, ?_⟩
  · intro s
    rcases env with ⟨i, v, r, f⟩
    cases i <;> cases v <;> cases r <;>
      simp [assetsByIdsIndexJs, indexFolderSteps, hfold]
  · intro s
    simp [assetsByIdsTyped, typedFolderSteps, hnone]

/-- Witness for C4 (amended): for the concrete id "artwork" the index.js
handler attempts no folder deletion, and the derivation example holds. -/
theorem folder_derivation_w :
    folderToDelete "user/u1/releases/r1/artwork" = "user/u1/releases/r1" ∧
    AssetStep.folderDelete "" ∉ (assetsByIdsIndexJs (.arr ["artwork"]) envAllOkAssets).trace :=
  ⟨(folder_derivation "artwork" [] envAllOkAssets (by decide)).1,
   (folder_derivation "artwork" [] envAllOkAssets (by decide)).2.1 ""⟩

/-! ## POST /delete-cloudinary-folder -/

/-- Outcomes of the two asset-host calls of the folder endpoint. -/
structure FolderEnv where
  resourcesByPfxCall : CallResult
  folderCall : CallResult
  deriving DecidableEq, Repr

/-- Response of the folder endpoint. -/
structure FolderResult where
  status : Nat
  message : String
  deriving DecidableEq, Repr

/-- Handler of `POST /delete-cloudinary-folder`: 400 on a falsy folder field;
otherwise delete-by-prefix then delete-folder inside one try whose catch
still responds 200, so every upstream failure is swallowed. -/
def deleteFolderHandler (folder : Option String) (env : FolderEnv) : FolderResult :=
  match folder with
  | none => { status := 400, message := "Missing folder path." }
  | some f =>
      if f = "" then { status := 400, message := "Missing folder path." }
      else
        match env.resourcesByPfxCall with
        | .err _ _ => { status := 200, message := "Cleanup process finished." }
        | .ok =>
            match env.folderCall with
            | .err _ _ => { status := 200, message := "Cleanup process finished." }
            | .ok =>
                { status := 200, message := "Folder and all assets deleted successfully." }

/-- C8: for every request carrying a non-empty folder string the response of
POST /delete-cloudinary-folder is a 200, including when the delete-by-prefix
or delete-folder call fails; no upstream error surfaces as a failure
status. -/
theorem delete_folder_always_200 (f : String) (env : FolderEnv) (h : f ≠ "") :
    (deleteFolderHandler (some f) env).status = 200 := by
  rcases env with ⟨p, d⟩
  cases p <;> cases d <;> simp [deleteFolderHandler, h]

/-- Environment where the folder deletion fails with a 404. -/
def envFolder404 : FolderEnv :=
  { resourcesByPfxCall := .ok, folderCall := .err "folder not found" (some 404) }

/-- Witness for C8: a concrete folder whose underlying delete-folder call
fails with a 404 still receives a 200. -/
theorem delete_folder_always_200_w :
    (deleteFolderHandler (some "user/u1") envFolder404).status = 200 :=
  delete_folder_always_200 "user/u1" envFolder404 (by decide)

/-! ## POST /delete-cloudinary-assets (URL mode)

The URL-mode variant extracts a public id from each URL with
`url.match(/upload\/(?:v\d+\/)?(.+?)\.[^.]+$/)` and skips URLs that yield no
id.  The regex is embedded operationally: scan for the leftmost occurrence
of "upload/" from which the rest of the pattern matches; greedily consume an
optional version segment "v<digits>/" (falling back to not consuming it);
the lazy capture then necessarily ends at the last dot of the string, which
must be followed by at least one non-dot character reaching the end.
-/

/-- The literal segment of the extraction pattern. -/
def uploadPat : List Char := "upload/".data

/-- Consume an optional version segment `v<digits>/` at the front. -/
def stripVersion : List Char → Option (List Char)
  | 'v' :: t =>
      let ds := t.takeWhile (fun c => c.isDigit)
      if ds.isEmpty then none
      else
        match t.drop ds.length with
        | '/' :: u => some u
        | _ => none
  | _ => none

/-- Match `(.+?)\.[^.]+$` against `body`: the capture runs up to the last
dot, which must leave a non-empty capture and at least one trailing
character. -/
def captureUpTo (body : List Char) : Option (List Char) :=
  match lastIdx body '.' with
  | none => none
  | some k => if 1 ≤ k ∧ k + 1 < body.length then some (body.take k) else none

/-- Match the pattern suffix after "upload/": first with the version segment
consumed (the greedy preference), then without it. -/
def extractAt (rest : List Char) : Option (List Char) :=
  match stripVersion rest with
  | some stripped =>
      match captureUpTo stripped with
      | some cap => some cap
      | none => captureUpTo rest
  | none => captureUpTo rest

/-- Scan for the leftmost occurrence of "upload/" from which the rest of the
pattern matches, backtracking to later occurrences on failure. -/
def extractScan : List Char → Option (List Char)
  | [] => none
  | c :: t =>
      if uploadPat.isPrefixOf (c :: t) then
        match extractAt ((c :: t).drop uploadPat.length) with
        | some cap => some cap
        | none => extractScan t
      else extractScan t

/-- `extractPublicIdFromUrl(url)`: null for a falsy url, otherwise the
capture of the first regex match, or null when the regex does not match. -/
def extractPublicIdFromUrl (url : Option String) : Option String :=
  match url with
  | none => none
  | some s => if s = "" then none else (extractScan s.data).map String.mk

/-- Outcome of the single `delete_resources` call of the URL-mode handler. -/
structure UrlEnv where
  resourcesCall : CallResult
  deriving DecidableEq, Repr

/-- Response of the URL-mode handler plus the attempted call. -/
structure UrlAssetsResult where
  status : Nat
  message : String
  trace : List AssetStep
  deriving DecidableEq, Repr

/-- Handler of the URL-mode `POST /delete-cloudinary-assets`: extract ids
from the artwork and audio URLs, skip URLs without an id, answer 200 with
"No assets to delete." when no id was collected, otherwise delete the
collected ids in one call (200 on success, 500 on error). -/
def assetsByUrls (artworkUrl audioUrl : Option String) (env : UrlEnv) : UrlAssetsResult :=
  let ids := (extractPublicIdFromUrl artworkUrl).toList
              ++ (extractPublicIdFromUrl audioUrl).toList
  match ids with
  | [] => { status := 200, message := "No assets to delete.", trace := [] }
  | collected =>
      match env.resourcesCall with
      | .ok =>
          { status := 200, message := "Assets deleted successfully."
            trace := [.resourcesDelete collected] }
      | .err _ _ =>
          { status := 500, message := "Failed to delete Cloudinary assets."
            trace := [.resourcesDelete collected] }

/-- Environment where the URL-mode deletion call resolves. -/
def urlEnvOk : UrlEnv := { resourcesCall := .ok }

/-- C5: the id-extraction function maps the sample hosted URL to the id with
the hosting prefix, version segment and file extension stripped; and every
URL from which no id is extractable contributes nothing, so the handler
finishes with a 200 and no deletion call instead of an error. -/
theorem extract_id_spec :
    extractPublicIdFromUrl (some "https://host/upload/v123/user/u1/releases/r1/artwork.png")
        = some "user/u1/releases/r1/artwork" ∧
    (∀ (aw au : Option String) (env : UrlEnv),
      extractPublicIdFromUrl aw = none → extractPublicIdFromUrl au = none →
      (assetsByUrls aw au env).status = 200 ∧ (assetsByUrls aw au env).trace = []) := by
  constructor
  · decide
  · intro aw au env h1 h2
    simp [assetsByUrls, h1, h2]

/-- Witness for C5: a malformed URL yields no id and the handler answers 200
without attempting a deletion. -/
theorem extract_id_spec_w :
    (assetsByUrls (some "not-a-url") none urlEnvOk).status = 200 ∧
    (assetsByUrls (some "not-a-url") none urlEnvOk).trace = [] :=
  extract_id_spec.2 (some "not-a-url") none urlEnvOk (by decide) rfl

/-! ## C7: response statuses when no usable ids are supplied -/

/-- The request supplies a usable id list: a present array with at least one
element. -/
def usableIds : PublicIdsField → Bool
  | .arr (_ :: _) => true
  | _ => false

/-- C7 counterexample: in URL mode a request from which no id can be
extracted is answered with a 200 ("No assets to delete."), not with the
claimed 400. -/
theorem url_mode_no_ids_cex :
    extractPublicIdFromUrl (some "not-a-url") = none ∧
    (assetsByUrls (some "not-a-url") none urlEnvOk).status = 200 ∧
    ¬ (assetsByUrls (some "not-a-url") none urlEnvOk).status = 400 := by
  decide

/-- C7 (amended): in id mode a missing, non-array or empty public_ids field
is answered with a 400; in URL mode a request with no extractable id is
answered with a 200 carrying "No assets to delete."; and the per-class
variant answers 200 for every usable request, erring only through its outer
catch. -/
theorem no_usable_ids_status (b : PublicIdsField) (env : AssetsEnv)
    (hb : usableIds b = false) :
    (assetsByIdsIndexJs b env).status = 400 ∧
    (∀ (aw au : Option String) (uenv : UrlEnv),
      extractPublicIdFromUrl aw = none → extractPublicIdFromUrl au = none →
      (assetsByUrls aw au uenv).status = 200 ∧
      (assetsByUrls aw au uenv).message = "No assets to delete.") ∧
    (∀ (firstId : String) (rest : List String) (tenv : AssetsEnv),
      (assetsByIdsTyped (.arr (firstId :: rest)) tenv).status = 200) := by
  refine ⟨?_, ?_, ?_⟩
  · match b with
    | .missing => rfl
    | .nonArray => rfl
    | .arr [] => rfl
    | .arr (x :: t) => simp [usableIds] at hb
  · intro aw au uenv h1 h2
    simp [assetsByUrls, h1, h2]
  · intro firstId rest tenv
    rfl

/-- Witness for C7 (amended) at a concrete missing field and a concrete
id-free URL request. -/
theorem no_usable_ids_status_w :
    (assetsByIdsIndexJs .missing envAllOkAssets).status = 400 ∧
    (assetsByUrls none none urlEnvOk).status = 200 :=
  ⟨(no_usable_ids_status .missing envAllOkAssets rfl).1,
   ((no_usable_ids_status .missing envAllOkAssets rfl).2.1 none none urlEnvOk rfl rfl).1⟩

end FirebaseAdminBackend
